import Mathlib

/-!
Verification development for the math-video-generator repository
(`app.py`, `utils/video_generator.py`, `quick_start.py`, `drive_manager.py`).

The repository contains two near-duplicate implementations of the
problem-to-narration-to-script pipeline:

* `app.py` : class `MathVideoGenerator` with `create_manim_script`,
  `generate_audio_content`, `generate_algebra_script` (and per-topic stubs),
  `render_video`, plus the Streamlit `main` that pre-splits solution steps.
* `utils/video_generator.py` : class `MathVideoGenerator` with
  `generate_audio_content`, `create_audio_files`, `generate_script_content`
  (and per-topic `_generate_*_script` stubs), `render_video`,
  `generate_video_complete`, and the module-level `validate_problem_data`.

Both are shallowly embedded below.  Python strings are `String`, Python lists
are `List`, dicts built in insertion order are association lists
`List (String × String)`, and the dynamically-typed dict fields of
`problem_data` are modelled with `Option` (absent key) over small sum types
(the runtime types the code actually handles).  Functions from `app.py` live
in namespace `App`, functions from `utils/video_generator.py` in namespace `VG`.
Fallible composition is modelled with `Except PyError`: both algebra script
templates are defective in the source — `app.py:292` is a compile-time
`SyntaxError` under every CPython, and `utils/video_generator.py:377`
evaluates an unbound name — so each composer denotes its failure (details at
the respective definitions).
-/

namespace MathVideo

/-! ### Python string primitives

Structurally recursive (hence kernel-computable) models of the Python string
operations the repository uses: `str.strip`, `str.split(sep)`,
`str.replace(old, new)`, `str.lower`, `str.split()` (whitespace words).
-/

/-- Characters `str.strip()` removes (Python's notion of whitespace for `strip`). -/
def pyIsSpace (c : Char) : Bool :=
  c == ' ' || c == '\t' || c == '\n' || c == '\r' || c == '\x0b' || c == '\x0c'

/-- Python `s.strip()`: drop leading and trailing whitespace. -/
def pyStrip (s : String) : String :=
  String.mk (((s.data.dropWhile pyIsSpace).reverse.dropWhile pyIsSpace).reverse)

/-- Does `pat` occur at the head of `l`? (Python `str.startswith`, on char lists.) -/
def listHasPrefix : List Char → List Char → Bool
  | [], _ => true
  | _ :: _, [] => false
  | p :: ps, c :: cs => p == c && listHasPrefix ps cs

/-- Core of Python `s.split(sep)` for a non-empty `sep`, on char lists.
`fuel` only bounds the recursion (any `fuel ≥ l.length` gives the real split);
when it runs out the remaining characters become the final chunk. -/
def pySplitAux (sep : List Char) : Nat → List Char → List Char → List (List Char)
  | 0, l, acc => [acc.reverse ++ l]
  | fuel + 1, l, acc =>
    if listHasPrefix sep l && !sep.isEmpty then
      acc.reverse :: pySplitAux sep fuel (l.drop sep.length) []
    else
      match l with
      | [] => [acc.reverse]
      | c :: cs => pySplitAux sep fuel cs (c :: acc)

/-- Python `s.split(sep)` for non-empty `sep`: split on every (non-overlapping,
leftmost) occurrence, keeping empty chunks; `"".split(sep) == [""]`. -/
def pySplit (s sep : String) : List String :=
  (pySplitAux sep.data s.data.length s.data []).map String.mk

/-- Python `sep.join(parts)`. -/
def joinSep (sep : String) : List String → String
  | [] => ""
  | [x] => x
  | x :: y :: rest => x ++ sep ++ joinSep sep (y :: rest)

/-- Python `s.replace(old, new)` for non-empty `old`
(equal to `new.join(s.split(old))`). -/
def pyReplace (s old new : String) : String :=
  joinSep new (pySplit s old)

/-- Python `s.lower()` (ASCII case folding; the repository's topic keywords are ASCII). -/
def pyLower (s : String) : String :=
  String.mk (s.data.map Char.toLower)

/-- Does `sub` occur as a contiguous run inside `l`? -/
def listContainsSub (sub : List Char) : List Char → Bool
  | [] => sub.isEmpty
  | c :: cs => listHasPrefix sub (c :: cs) || listContainsSub sub cs

/-- Python `sub in s` (substring membership). -/
def pyContains (s sub : String) : Bool :=
  listContainsSub sub.data s.data

/-- Python `s.endswith(suffix)`. -/
def strEndsWith (s suffix : String) : Bool :=
  listHasPrefix suffix.data.reverse s.data.reverse

/-- Python `s.split()`: whitespace-separated words, empties dropped. -/
def pyWords (s : String) : List String :=
  ((s.data.splitOnP pyIsSpace).map String.mk).filter (fun w => w != "")

/-- Decimal digit character for `d < 10`. -/
def digitCh (d : Nat) : Char :=
  if d = 0 then '0' else if d = 1 then '1' else if d = 2 then '2'
  else if d = 3 then '3' else if d = 4 then '4' else if d = 5 then '5'
  else if d = 6 then '6' else if d = 7 then '7' else if d = 8 then '8' else '9'

/-- Numeric value of a decimal digit character. -/
def digitVal (c : Char) : Nat := c.toNat - 48

/-- Digit list (most significant first) of `n`, empty for `0`;
`fuel` bounds the recursion (any `fuel ≥ n` is exact). -/
def natDigitsAux : Nat → Nat → List Char
  | 0, _ => []
  | fuel + 1, n => if n = 0 then [] else natDigitsAux fuel (n / 10) ++ [digitCh (n % 10)]

/-- Python `str(n)` for a non-negative integer (e.g. `str(int(time.time()))`). -/
def natDecimal (n : Nat) : String :=
  if n = 0 then "0" else String.mk (natDigitsAux n n)

/-- Read a digit string back as a number (left fold, used to invert `natDecimal`). -/
def decodeDigits (l : List Char) : Nat :=
  l.foldl (fun a c => a * 10 + digitVal c) 0

/-- Python `str(n)` for an `int` (negatives get a sign). -/
def intDecimal : Int → String
  | .ofNat n => natDecimal n
  | .negSucc n => "-" ++ natDecimal (n + 1)

/-! ### The dynamically-typed `problem_data` dict -/

/-- Runtime type of the `grade` entry: the UI passes an `int`, but
`validate_problem_data` guards with `isinstance(grade, int)`, so a non-int
(string) value is representable. -/
inductive GradeVal
  | int (n : Int)
  | str (s : String)
deriving DecidableEq, Repr

/-- Runtime type of the `solution_steps` entry: a single text block or an
already-split list (`validate_problem_data` handles both). -/
inductive StepsVal
  | str (s : String)
  | list (l : List String)
deriving DecidableEq, Repr

/-- The `problem_data` dict.  `none` models an absent key. -/
structure ProblemData where
  statement : Option String
  grade : Option GradeVal
  topic : Option String
  solution_steps : Option StepsVal
  answer : Option String
deriving DecidableEq, Repr

/-- Python truthiness of a grade value (`0` and `""` are falsy). -/
def GradeVal.truthy : GradeVal → Bool
  | .int n => n != 0
  | .str s => s != ""

/-- Python truthiness of a steps value (`""` and `[]` are falsy). -/
def StepsVal.truthy : StepsVal → Bool
  | .str s => s != ""
  | .list l => !l.isEmpty

/-- Python `field in problem_data and bool(problem_data[field])`. -/
def fieldTruthy (o : Option α) (t : α → Bool) : Bool :=
  match o with
  | none => false
  | some v => t v

/-- All five required fields are present and truthy, in the sense of the
`for field in required_fields` loop of `validate_problem_data`. -/
def allFieldsTruthy (pd : ProblemData) : Bool :=
  fieldTruthy pd.statement (fun s => s != "") &&
  fieldTruthy pd.grade GradeVal.truthy &&
  fieldTruthy pd.topic (fun s => s != "") &&
  fieldTruthy pd.solution_steps StepsVal.truthy &&
  fieldTruthy pd.answer (fun s => s != "")

/-- Python `isinstance(grade, int) and 6 <= grade <= 10`
(the negation of the failing grade test in `validate_problem_data`). -/
def gradeOk (pd : ProblemData) : Bool :=
  match pd.grade with
  | some (.int n) => decide (6 ≤ n) && decide (n ≤ 10)
  | _ => false

/-- The separator `validate_problem_data` actually splits on: the source reads
`problem_data['solution_steps'].strip().split('\\n')`, a Python string literal
denoting BACKSLASH `n` (two characters), not a newline. -/
def vgStepSep : String := "\\n"

/-- The normalisation step of `validate_problem_data`: when `solution_steps`
is a string it is overwritten (in the input dict) with
`steps.strip().split('\\n')`; otherwise the dict is untouched. -/
def normalizeSteps (pd : ProblemData) : ProblemData :=
  match pd.solution_steps with
  | some (.str s) => { pd with solution_steps := some (.list (pySplit (pyStrip s) vgStepSep)) }
  | _ => pd

namespace VG

/-- Model of `utils/video_generator.py::validate_problem_data`.
Returns the `(ok, message)` pair together with the `problem_data` dict as it
is left after the call (the function mutates `problem_data['solution_steps']`
in place when it arrives as a string). -/
def validate_problem_data (pd : ProblemData) : (Bool × String) × ProblemData :=
  if !fieldTruthy pd.statement (fun s => s != "") then
    ((false, "Missing or empty field: statement"), pd)
  else if !fieldTruthy pd.grade GradeVal.truthy then
    ((false, "Missing or empty field: grade"), pd)
  else if !fieldTruthy pd.topic (fun s => s != "") then
    ((false, "Missing or empty field: topic"), pd)
  else if !fieldTruthy pd.solution_steps StepsVal.truthy then
    ((false, "Missing or empty field: solution_steps"), pd)
  else if !fieldTruthy pd.answer (fun s => s != "") then
    ((false, "Missing or empty field: answer"), pd)
  else if !gradeOk pd then
    ((false, "Grade must be between 6 and 10"), pd)
  else
    let pd' := normalizeSteps pd
    match pd'.solution_steps with
    | some (.list l) =>
      if l.length = 0 then ((false, "Solution steps must be a non-empty list"), pd')
      else ((true, "Valid"), pd')
    | _ => ((false, "Solution steps must be a non-empty list"), pd')

end VG

namespace App

/-- The pre-splitting `app.py:516` performs before building `problem_data`:
`solution_steps.strip().split('\n')` — here the separator IS a newline. -/
def preSplitSteps (block : String) : List String :=
  pySplit (pyStrip block) "\n"

end App

/-- A Python exception/abort value, as far as the embedding needs one:
`nameError` for an unbound name raised at f-string evaluation, `syntaxError`
for a function whose body the CPython compiler rejects outright. -/
inductive PyError
  | nameError (ident : String)
  | syntaxError (msg : String)
deriving DecidableEq, Repr


/-! ### `app.py` : `MathVideoGenerator`

`app.py`'s `main` (lines 512–518) always builds `problem_data` with all five
keys present: `statement`/`topic`/`answer` strings, `grade` an int from the
grade selectbox, and `solution_steps` a list of strings (pre-split at line
516).  The `MathVideoGenerator` methods of `app.py` index these keys directly
(`problem_data['statement']`), so they are modelled over this record. -/

structure AppProblem where
  statement : String
  grade : Int
  topic : String
  solution_steps : List String
  answer : String
deriving DecidableEq, Repr

namespace App

/-- Model of `app.py::MathVideoGenerator.generate_audio_content` (lines
169–181): the six fixed narration entries, in dict insertion order, each key
suffixed with `str(int(time.time()))` (here the already-rendered `ts`).
It produces NO per-solution-step entries. -/
def generate_audio_content (ts : String) (pd : AppProblem) : List (String × String) :=
  [ ("intro_" ++ ts, "नमस्ते बच्चों! चलिए " ++ pd.topic ++ " का एक प्रश्न हल करें।"),
    ("title_" ++ ts, "आज का topic है - " ++ pd.topic ++ "। इसमें हम step by step solution देखेंगे।"),
    ("problem_" ++ ts, "Problem statement है: " ++ pd.statement),
    ("solution_start_" ++ ts, "अब इसका solution देखते हैं step by step।"),
    ("answer_" ++ ts, "तो final answer है " ++ pd.answer ++ "।"),
    ("conclusion_" ++ ts, "बहुत अच्छे बच्चों! आज आपने सीखा कि " ++ pd.topic ++ " के problems कैसे solve करते हैं।") ]

/-- Model of `app.py::MathVideoGenerator.generate_algebra_script` (lines
183–335).  The method's body is a single f-string template, and at line 292
that template contains the replacement field

  `{step.replace('"', '\\"') for step in problem_data['solution_steps']}`

which the CPython compiler rejects in every version: before Python 3.12 an
f-string expression part may not contain a backslash
(`SyntaxError: f-string expression part cannot include a backslash`), and
from 3.12 on the field's expression is a bare (unparenthesised) generator
expression, which is not a valid replacement-field expression either.  The
error is raised when `app.py` itself is byte-compiled, so this function can
never run and never produces any program text; its denotation is that
compile-time failure.  (As everywhere else in this file, each function is
modelled by the meaning of its own body; the defect lives in this body.) -/
def generate_algebra_script (_sarvam_api_key _class_name : String)
    (_pd : AppProblem) (_audio_content : List (String × String)) :
    Except PyError String :=
  .error (.syntaxError "f-string expression part cannot include a backslash")

/-- Source `app.py:337-341`: `generate_geometry_script` returns
`self.generate_algebra_script(...)` (marked `# Placeholder`). -/
def generate_geometry_script (sarvam_api_key class_name : String)
    (pd : AppProblem) (audio_content : List (String × String)) :
    Except PyError String :=
  generate_algebra_script sarvam_api_key class_name pd audio_content

/-- Source `app.py:343-345`: coordinate-geometry branch, a stub calling the algebra branch. -/
def generate_coordinate_geometry_script (sarvam_api_key class_name : String)
    (pd : AppProblem) (audio_content : List (String × String)) :
    Except PyError String :=
  generate_algebra_script sarvam_api_key class_name pd audio_content

/-- Source `app.py:347-349`: trigonometry branch, a stub calling the algebra branch. -/
def generate_trigonometry_script (sarvam_api_key class_name : String)
    (pd : AppProblem) (audio_content : List (String × String)) :
    Except PyError String :=
  generate_algebra_script sarvam_api_key class_name pd audio_content

/-- Source `app.py:351-353`: probability branch, a stub calling the algebra branch. -/
def generate_probability_script (sarvam_api_key class_name : String)
    (pd : AppProblem) (audio_content : List (String × String)) :
    Except PyError String :=
  generate_algebra_script sarvam_api_key class_name pd audio_content

/-- Source `app.py:355-357`: statistics branch, a stub calling the algebra branch. -/
def generate_statistics_script (sarvam_api_key class_name : String)
    (pd : AppProblem) (audio_content : List (String × String)) :
    Except PyError String :=
  generate_algebra_script sarvam_api_key class_name pd audio_content

/-- Source `app.py:359-361`: generic fallback branch, calling the algebra branch. -/
def generate_generic_script (sarvam_api_key class_name : String)
    (pd : AppProblem) (audio_content : List (String × String)) :
    Except PyError String :=
  generate_algebra_script sarvam_api_key class_name pd audio_content

/-- The scene class name built at `app.py:146`:
`f"{topic.replace(' ', '')}Problem{int(time.time())}"`. -/
def manim_class_name (topic : String) (ts : Nat) : String :=
  pyReplace topic " " "" ++ "Problem" ++ natDecimal ts

/-- Model of `app.py::MathVideoGenerator.create_manim_script` (lines 135–167).
`tsCls` and `tsAudio` are the two separate `int(time.time())` reads (line 146
and line 171).  Returns `(script, class_name)`; the script component is
whatever the selected branch generator yields (for this source, always the
`generate_algebra_script` compile-time failure). -/
def create_manim_script (sarvam_api_key : String)
    (tsCls tsAudio : Nat) (pd : AppProblem) : Except PyError String × String :=
  let class_name := manim_class_name pd.topic tsCls
  let audio_content := generate_audio_content (natDecimal tsAudio) pd
  let tl := pyLower pd.topic
  let script :=
    if tl == "algebra" || tl == "linear equations" || tl == "quadratic equations" then
      generate_algebra_script sarvam_api_key class_name pd audio_content
    else if tl == "geometry" || tl == "triangles" || tl == "circles" then
      generate_geometry_script sarvam_api_key class_name pd audio_content
    else if tl == "coordinate geometry" then
      generate_coordinate_geometry_script sarvam_api_key class_name pd audio_content
    else if tl == "trigonometry" then
      generate_trigonometry_script sarvam_api_key class_name pd audio_content
    else if tl == "probability" then
      generate_probability_script sarvam_api_key class_name pd audio_content
    else if tl == "statistics" then
      generate_statistics_script sarvam_api_key class_name pd audio_content
    else
      generate_generic_script sarvam_api_key class_name pd audio_content
  (script, class_name)

end App

/-! ### `utils/video_generator.py` : `MathVideoGenerator` -/

/-- Python `str(grade)` for the dynamically-typed grade value. -/
def gradeStr : GradeVal → String
  | .int n => intDecimal n
  | .str s => s

/-- The iterable the `for i, step in enumerate(solution_steps)` loop of
`generate_audio_content` runs over: a missing key defaults to `[]`, a list is
iterated as-is, and a string is iterated character by character (Python
`enumerate` over a `str`). -/
def stepsIterable : Option StepsVal → List String
  | none => []
  | some (.list l) => l
  | some (.str s) => s.data.map (fun c => String.mk [c])

namespace VG

/-- Per-step narration text of
`utils/video_generator.py::generate_audio_content` (lines 106–115), selected
by `topic.lower()` keyword membership. -/
def stepNarration (topicLower : String) (i : Nat) (step : String) : String :=
  if topicLower == "algebra" || topicLower == "linear equations" then
    "Step " ++ natDecimal (i + 1) ++ ": " ++ step ++ "। यहाँ हमने equation को simplify किया।"
  else if topicLower == "geometry" || topicLower == "triangles" then
    "Step " ++ natDecimal (i + 1) ++ ": " ++ step ++ "। geometric properties का use करके।"
  else if topicLower == "trigonometry" then
    "Step " ++ natDecimal (i + 1) ++ ": " ++ step ++ "। trigonometric ratio use करके।"
  else
    "Step " ++ natDecimal (i + 1) ++ ": " ++ step ++ "। carefully observe करें।"

/-- The `for i, step in enumerate(solution_steps)` loop of
`generate_audio_content` (lines 104–115): appends one
`(f"step_{i+1}_{timestamp}", narration)` entry per step, in step order. -/
def audioStepEntries (topicLower ts : String) : Nat → List String → List (String × String)
  | _, [] => []
  | i, step :: rest =>
    ("step_" ++ natDecimal (i + 1) ++ "_" ++ ts, stepNarration topicLower i step) ::
      audioStepEntries topicLower ts (i + 1) rest

/-- Model of `utils/video_generator.py::generate_audio_content` (lines
78–117): the six fixed narration entries followed by one entry per solution
step, in dict insertion order; every key is suffixed with the same rendered
timestamp `ts` (`str(int(time.time()))`). -/
def generate_audio_content (ts : String) (pd : ProblemData) : List (String × String) :=
  let topic := pd.topic.getD "Math"
  let grade := pd.grade.getD (.int 8)
  let problem_statement := pd.statement.getD ""
  let answer := pd.answer.getD ""
  [ ("intro_" ++ ts, "नमस्ते बच्चों! चलिए Grade " ++ gradeStr grade ++ " का " ++ topic ++ " का एक प्रश्न हल करें।"),
    ("title_" ++ ts, "आज का topic है - " ++ topic ++ "। इसमें हम step by step solution देखेंगे।"),
    ("problem_" ++ ts, "हमारा problem statement है: " ++ problem_statement),
    ("solution_start_" ++ ts, "अब इसका solution देखते हैं step by step। ध्यान से follow करें।"),
    ("answer_" ++ ts, "तो हमारा final answer है " ++ answer ++ "। यह correct answer है।"),
    ("conclusion_" ++ ts, "बहुत अच्छे बच्चों! आज आपने सीखा कि " ++ topic ++ " के problems कैसे solve करते हैं। Practice करते रहें!") ]
  ++ audioStepEntries (pyLower topic) ts 0 (stepsIterable pd.solution_steps)

/-- The duration estimate `max(2.0, len(text.split()) * 0.4)` used by
`create_audio_files` (durations as rationals: `0.4 = 2/5`). -/
def estimated_duration (text : String) : ℚ :=
  max 2 ((pyWords text).length * (2 / 5 : ℚ))

/-- The `for i, (audio_key, text) in enumerate(audio_content.items())` loop of
`create_audio_files` (lines 140–168): on a successful synthesis the item gets
the word-count estimate, on an exception (`ttsOk i = false`) the `3.0`
fallback; the loop always continues to the next item. -/
def audioFilesLoop (ttsOk : Nat → Bool) : Nat → List (String × String) → List (String × ℚ)
  | _, [] => []
  | i, (audio_key, text) :: rest =>
    (audio_key, if ttsOk i then estimated_duration text else 3) ::
      audioFilesLoop ttsOk (i + 1) rest

/-- Model of `utils/video_generator.py::create_audio_files` (lines 119–173).
`clientPresent` is `bool(self.client)`; `ttsOk i` tells whether the `i`-th
`text_to_speech`/`save` call succeeds (the external effect, an oracle).
Without a client the function returns the estimated durations for every key;
with a client it runs the per-item loop.  Streamlit progress-bar calls are
pure UI and not modelled. -/
def create_audio_files (clientPresent : Bool) (ttsOk : Nat → Bool)
    (audio_content : List (String × String)) : List (String × ℚ) :=
  if !clientPresent then
    audio_content.map (fun kv => (kv.1, estimated_duration kv.2))
  else
    audioFilesLoop ttsOk 0 audio_content

end VG

namespace VG

/-- Model of `utils/video_generator.py::_generate_algebra_script` (lines
203–420).  The method's body is a single f-string template; at line 377 the
template contains

  `step_keys = [k for k in self.audio_durations.keys() if f'step_{{{i+1}}}' in k]`

whose `{{{i+1}}}` the f-string grammar reads as literal `{`, then the
replacement field `{i+1}`, then literal `}` — so building the template
evaluates the name `i`, which is bound nowhere in `_generate_algebra_script`
(the intended doubled-brace form would have been `step_{{i+1}}`).  Evaluating
the f-string therefore raises `NameError: name 'i' is not defined` on every
call, before any text is produced; the function's denotation is that error. -/
def _generate_algebra_script (_problem_data : ProblemData)
    (_audio_content : List (String × String)) (_class_name : String) :
    Except PyError String :=
  .error (.nameError "i")

/-- Source `utils/video_generator.py:422-425`: geometry branch, a stub returning
`self._generate_algebra_script(...)` (`# Simplified for now`). -/
def _generate_geometry_script (problem_data : ProblemData)
    (audio_content : List (String × String)) (class_name : String) :
    Except PyError String :=
  _generate_algebra_script problem_data audio_content class_name

/-- Source `utils/video_generator.py:427-429`: coordinate-geometry branch, a stub
returning the algebra branch. -/
def _generate_coordinate_geometry_script (problem_data : ProblemData)
    (audio_content : List (String × String)) (class_name : String) :
    Except PyError String :=
  _generate_algebra_script problem_data audio_content class_name

/-- Source `utils/video_generator.py:431-433`: trigonometry branch, a stub returning
the algebra branch. -/
def _generate_trigonometry_script (problem_data : ProblemData)
    (audio_content : List (String × String)) (class_name : String) :
    Except PyError String :=
  _generate_algebra_script problem_data audio_content class_name

/-- Source `utils/video_generator.py:435-437`: statistics/probability branch, a stub
returning the algebra branch. -/
def _generate_stats_script (problem_data : ProblemData)
    (audio_content : List (String × String)) (class_name : String) :
    Except PyError String :=
  _generate_algebra_script problem_data audio_content class_name

/-- Source `utils/video_generator.py:439-441`: generic fallback branch, returning the
algebra branch. -/
def _generate_generic_script (problem_data : ProblemData)
    (audio_content : List (String × String)) (class_name : String) :
    Except PyError String :=
  _generate_algebra_script problem_data audio_content class_name

/-- Model of `utils/video_generator.py::generate_script_content` (lines
175–201): keyword dispatch over `topic = problem_data.get('topic', '').lower()`
using Python substring membership (`keyword in topic`). -/
def generate_script_content (problem_data : ProblemData)
    (audio_content : List (String × String)) (class_name : String) :
    Except PyError String :=
  let topic := pyLower (problem_data.topic.getD "")
  if pyContains topic "algebra" || pyContains topic "equation" ||
      pyContains topic "linear" || pyContains topic "quadratic" then
    _generate_algebra_script problem_data audio_content class_name
  else if pyContains topic "geometry" || pyContains topic "triangle" ||
      pyContains topic "circle" || pyContains topic "polygon" then
    _generate_geometry_script problem_data audio_content class_name
  else if pyContains topic "coordinate" then
    _generate_coordinate_geometry_script problem_data audio_content class_name
  else if pyContains topic "trigonometry" || pyContains topic "sin" ||
      pyContains topic "cos" || pyContains topic "tan" then
    _generate_trigonometry_script problem_data audio_content class_name
  else if pyContains topic "probability" || pyContains topic "statistics" ||
      pyContains topic "data" then
    _generate_stats_script problem_data audio_content class_name
  else
    _generate_generic_script problem_data audio_content class_name

/-- The scene class name built by `generate_video_complete`
(`utils/video_generator.py:574-576`):
`problem_data.get('topic', 'Math').replace(' ', '').replace('-', '')`
followed by `Problem` and the timestamp. -/
def video_class_name (topic : Option String) (ts : Nat) : String :=
  pyReplace (pyReplace (topic.getD "Math") " " "") "-" "" ++ "Problem" ++ natDecimal ts

end VG

/-! ### The render invokers

Both `render_video` functions create a scratch directory, write the generated
script into it, run the external `manim` subprocess, and inspect the output
directory.  The external effects are an oracle (`RenderOutcome`): the
subprocess either times out, exits with a return code / captured streams and
the listing of the quality-specific output directory, or some step raises.
Each model returns the function's Python return value together with the trace
of filesystem operations it performed, from which directory existence after
the call is derived. -/

/-- Outcome of the external renderer invocation (the non-deterministic part).
`files` is `os.listdir` of `media/videos/<class>/1080p60` in listing order
(`videoDirExists = false` when that directory was never created). -/
inductive RenderOutcome
  | timeout
  | exits (returncode : Int) (stdout stderr : String)
      (videoDirExists : Bool) (files : List String)
  | exn (msg : String)
deriving DecidableEq, Repr

/-- A filesystem operation the render functions perform. -/
inductive FsOp
  | createDir (p : String)
  | writeFile (p : String)
  | copyFile (src dst : String)
  | removeTree (p : String)
deriving DecidableEq, Repr

/-- Whether directory `d` exists after replaying the operation trace
(created and not subsequently removed; nothing exists beforehand). -/
def dirExistsAfter (ops : List FsOp) (d : String) : Bool :=
  ops.foldl
    (fun ex op =>
      match op with
      | .createDir p => if p == d then true else ex
      | .removeTree p => if p == d then false else ex
      | _ => ex)
    false

/-- The `(video_path, script_path, error_message)` triple
`utils/video_generator.py::render_video` returns. -/
structure VgRenderReturn where
  video_path : Option String
  script_path : Option String
  error : Option String
deriving DecidableEq, Repr

namespace VG

/-- Model of `utils/video_generator.py::render_video` (lines 443–538).
`temp_dir` is the directory `tempfile.mkdtemp(prefix="manim_render_")`
produced.  The function has no `finally` and never calls
`shutil.rmtree(temp_dir)`: on success it even copies the artifact to
`<temp_dir>/<class>_final.mp4` inside the scratch directory and returns that
path.  The non-zero-exit error message is built with `f"...\\nSTDOUT..."`
(line 514), i.e. with a literal backslash-n, reproduced here. -/
def render_video (outcome : RenderOutcome) (temp_dir class_name : String) :
    VgRenderReturn × List FsOp :=
  let script_path := temp_dir ++ "/" ++ class_name ++ ".py"
  let base : List FsOp := [.createDir temp_dir, .writeFile script_path]
  match outcome with
  | .exn msg => (⟨none, none, some ("Rendering error: " ++ msg)⟩, base)
  | .timeout => (⟨none, some script_path, some "Rendering timed out after 5 minutes"⟩, base)
  | .exits returncode stdout stderr videoDirExists files =>
    if returncode != 0 then
      (⟨none, some script_path,
        some ("Manim rendering failed:\\nSTDOUT: " ++ stdout ++ "\\nSTDERR: " ++ stderr)⟩, base)
    else
      let video_dir := temp_dir ++ "/media/videos/" ++ class_name ++ "/1080p60"
      if videoDirExists then
        match files.find? (fun f => strEndsWith f ".mp4") with
        | some f =>
          let permanent := temp_dir ++ "/" ++ class_name ++ "_final.mp4"
          (⟨some permanent, some script_path, none⟩,
            base ++ [.copyFile (video_dir ++ "/" ++ f) permanent])
        | none => (⟨none, some script_path, some "Video file not found after rendering"⟩, base)
      else
        (⟨none, some script_path, some "Video file not found after rendering"⟩, base)

end VG

namespace App

/-- Model of `app.py::MathVideoGenerator.render_video` (lines 363–405).  The
whole body runs under `with tempfile.TemporaryDirectory() as temp_dir:`, whose
`__exit__` deletes the directory on every path out of the block — including
the success path, which returns a video path INSIDE the deleted directory.
The Python function returns a pair whose second slot is the script path on
success and an error message otherwise; the first slot is the video path or
`None`. -/
def render_video (outcome : RenderOutcome) (temp_dir class_name : String) :
    (Option String × String) × List FsOp :=
  let script_path := temp_dir ++ "/" ++ class_name ++ ".py"
  let base : List FsOp := [.createDir temp_dir, .writeFile script_path]
  let cleanup : List FsOp := [.removeTree temp_dir]
  match outcome with
  | .exn msg => ((none, "Rendering error: " ++ msg), base ++ cleanup)
  | .timeout => ((none, "Video rendering timed out"), base ++ cleanup)
  | .exits returncode _stdout stderr videoDirExists files =>
    if returncode != 0 then
      ((none, "Manim error: " ++ stderr), base ++ cleanup)
    else
      let video_dir := temp_dir ++ "/media/videos/" ++ class_name ++ "/1080p60"
      if videoDirExists then
        match files.find? (fun f => strEndsWith f ".mp4") with
        | some f => ((some (video_dir ++ "/" ++ f), script_path), base ++ cleanup)
        | none => ((none, "Video file not found"), base ++ cleanup)
      else
        ((none, "Video file not found"), base ++ cleanup)

end App

/-! ### Auxiliary definitions used by the theorem statements -/

/-- May `c` start a Python identifier? (ASCII identifiers; the class names the
repository derives are built from ASCII topic labels, `Problem`, and digits.) -/
def identStart (c : Char) : Bool :=
  c.isAlpha || c == '_'

/-- May `c` continue a Python identifier? -/
def identCont (c : Char) : Bool :=
  c.isAlphanum || c == '_'

/-- Syntactic validity of an (ASCII) Python identifier. -/
def isValidPythonIdent (s : String) : Bool :=
  match s.data with
  | [] => false
  | c :: cs => identStart c && cs.all identCont

/-- Is `m` one of the `f"Missing or empty field: {field}"` messages of
`validate_problem_data`? (Exactly the messages with this prefix.) -/
def isMissingFieldMsg (m : String) : Bool :=
  listHasPrefix ("Missing or empty field: ").data m.data

/-- The topic options of the `app.py` UI selectbox (lines 474–482). -/
def appUiTopics : List String :=
  ["Algebra", "Linear Equations", "Quadratic Equations",
   "Geometry", "Triangles", "Circles",
   "Coordinate Geometry", "Trigonometry",
   "Probability", "Statistics", "Arithmetic"]

/-- The six fixed narration keys of
`utils/video_generator.py::generate_audio_content`, in insertion order. -/
def vgFixedKeys (ts : String) : List String :=
  ["intro_" ++ ts, "title_" ++ ts, "problem_" ++ ts,
   "solution_start_" ++ ts, "answer_" ++ ts, "conclusion_" ++ ts]

/-- The key of the narration entry for solution step `i` (0-based):
`f"step_{i+1}_{timestamp}"`. -/
def vgStepKey (ts : String) (i : Nat) : String :=
  "step_" ++ natDecimal (i + 1) ++ "_" ++ ts

/-- Concrete `app.py`-shaped problem whose statement contains a double quote
(`He said "solve 2x = 8"`) — text that escaping COULD have made safe. -/
def pdQuote : AppProblem :=
  { statement := "He said \"solve 2x = 8\""
    grade := 8
    topic := "Algebra"
    solution_steps := ["2x = 8", "x = 4"]
    answer := "x = 4"
    }

/-- The same quote-containing problem in `problem_data`-dict form, for the
`utils/video_generator.py` composer. -/
def pdQuoteDict : ProblemData :=
  { statement := some "He said \"solve 2x = 8\""
    grade := some (.int 8)
    topic := some "Algebra"
    solution_steps := some (.list ["2x = 8", "x = 4"])
    answer := some "x = 4"
    }

/-- Concrete valid `problem_data` with a two-step solution, used against the
`app.py` narration builder. -/
def pdTwoSteps : AppProblem :=
  { statement := "Solve for x: 2x + 5 = 13"
    grade := 8
    topic := "Algebra"
    solution_steps := ["2x = 8", "x = 4"]
    answer := "x = 4"
    }

/-- Concrete `problem_data` dict whose `solution_steps` arrives as one
multi-line block (a real newline between the two steps). -/
def pdBlock : ProblemData :=
  { statement := some "Solve for x: 2x + 5 = 13"
    grade := some (.int 8)
    topic := some "Algebra"
    solution_steps := some (.str "2x = 8\nx = 4")
    answer := some "x = 4"
    }

/-- Concrete `problem_data` dict with the same two steps supplied pre-split. -/
def pdPreSplit : ProblemData :=
  { statement := some "Solve for x: 2x + 5 = 13"
    grade := some (.int 8)
    topic := some "Algebra"
    solution_steps := some (.list ["2x = 8", "x = 4"])
    answer := some "x = 4"
    }

/-- Concrete `problem_data` dict with an empty statement AND an out-of-range
grade (99): the missing-field check fires first. -/
def pdEmptyStmtBadGrade : ProblemData :=
  { statement := some ""
    grade := some (.int 99)
    topic := some "Algebra"
    solution_steps := some (.list ["2x = 8"])
    answer := some "x = 4"
    }

/-- Concrete `problem_data` dict whose steps arrive as a (single-line) string,
used to exhibit the in-place mutation performed by validation. -/
def pdStrSteps : ProblemData :=
  { statement := some "Solve for x: 2x + 5 = 13"
    grade := some (.int 8)
    topic := some "Algebra"
    solution_steps := some (.str "2x = 8")
    answer := some "x = 4"
    }

/-- Concrete `problem_data` dict whose step list contains an empty string. -/
def pdEmptyStep : ProblemData :=
  { statement := some "Solve for x: 2x + 5 = 13"
    grade := some (.int 8)
    topic := some "Algebra"
    solution_steps := some (.list ["2x = 8", ""])
    answer := some "x = 4"
    }

/-- Concrete `problem_data` dict whose topic (`"2D Shapes"`) passes validation
but yields a class name starting with a digit. -/
def pdDigitTopic : ProblemData :=
  { statement := some "Count the shapes"
    grade := some (.int 7)
    topic := some "2D Shapes"
    solution_steps := some (.list ["look carefully"])
    answer := some "4"
    }

/-! ### Basic lemmas: string append, decimal rendering, splitting -/

theorem str_append_left_cancel {a b c : String} (h : a ++ b = a ++ c) : b = c := by
  have hd := congrArg String.data h
  rw [String.data_append, String.data_append] at hd
  exact String.ext (List.append_cancel_left hd)

theorem str_append_right_cancel {a b c : String} (h : a ++ c = b ++ c) : a = b := by
  have hd := congrArg String.data h
  rw [String.data_append, String.data_append] at hd
  exact String.ext (List.append_cancel_right hd)

theorem digitVal_digitCh {d : Nat} (h : d < 10) : digitVal (digitCh d) = d := by
  interval_cases d <;> rfl

theorem identCont_digitCh (d : Nat) : identCont (digitCh d) = true := by
  unfold digitCh
  split_ifs <;> decide

theorem decodeDigits_append_singleton (l : List Char) (c : Char) :
    decodeDigits (l ++ [c]) = decodeDigits l * 10 + digitVal c := by
  simp [decodeDigits, List.foldl_append]

theorem decode_natDigitsAux :
    ∀ fuel n, n ≤ fuel → decodeDigits (natDigitsAux fuel n) = n := by
  intro fuel
  induction fuel with
  | zero =>
    intro n hn
    have : n = 0 := Nat.le_zero.mp hn
    subst this
    rfl
  | succ fuel ih =>
    intro n hn
    by_cases h0 : n = 0
    · subst h0; rfl
    · rw [natDigitsAux, if_neg h0, decodeDigits_append_singleton,
        ih (n / 10) (by
          have := Nat.div_lt_self (Nat.pos_of_ne_zero h0) (by norm_num : 1 < 10)
          omega),
        digitVal_digitCh (Nat.mod_lt n (by norm_num))]
      omega

theorem natDecimal_inj {m n : Nat} (h : natDecimal m = natDecimal n) : m = n := by
  unfold natDecimal at h
  by_cases hm : m = 0 <;> by_cases hn : n = 0
  · omega
  · rw [if_pos hm, if_neg hn] at h
    have hd := congrArg String.data h
    have hdec := congrArg decodeDigits hd
    have : decodeDigits (natDigitsAux n n) = n := decode_natDigitsAux n n le_rfl
    simp only [this] at hdec
    exact absurd hdec.symm (by simpa using hn)
  · rw [if_neg hm, if_pos hn] at h
    have hd := congrArg String.data h
    have hdec := congrArg decodeDigits hd
    have : decodeDigits (natDigitsAux m m) = m := decode_natDigitsAux m m le_rfl
    simp only [this] at hdec
    exact absurd hdec (by simpa using hm)
  · rw [if_neg hm, if_neg hn] at h
    have hd := congrArg String.data h
    have hdec := congrArg decodeDigits hd
    rwa [decode_natDigitsAux m m le_rfl, decode_natDigitsAux n n le_rfl] at hdec

theorem natDigitsAux_all_identCont :
    ∀ fuel n, ∀ c ∈ natDigitsAux fuel n, identCont c = true := by
  intro fuel
  induction fuel with
  | zero => intro n c hc; simp [natDigitsAux] at hc
  | succ fuel ih =>
    intro n c hc
    rw [natDigitsAux] at hc
    by_cases h0 : n = 0
    · rw [if_pos h0] at hc; simp at hc
    · rw [if_neg h0] at hc
      rcases List.mem_append.mp hc with h | h
      · exact ih _ _ h
      · rcases List.mem_singleton.mp h with rfl
        exact identCont_digitCh _

theorem natDecimal_all_identCont (n : Nat) :
    ∀ c ∈ (natDecimal n).data, identCont c = true := by
  intro c hc
  unfold natDecimal at hc
  by_cases h0 : n = 0
  · rw [if_pos h0] at hc
    have hdat : ("0" : String).data = ['0'] := rfl
    rw [hdat] at hc
    rcases List.mem_singleton.mp hc with rfl
    decide
  · rw [if_neg h0] at hc
    exact natDigitsAux_all_identCont n n c hc

theorem pySplitAux_ne_nil (sep : List Char) :
    ∀ fuel l acc, pySplitAux sep fuel l acc ≠ [] := by
  intro fuel
  induction fuel with
  | zero => intro l acc; simp [pySplitAux]
  | succ fuel ih =>
    intro l acc
    by_cases hc : (listHasPrefix sep l && !sep.isEmpty) = true
    · simp [pySplitAux, hc]
    · cases l with
      | nil => simp [pySplitAux, hc]
      | cons c cs => simpa [pySplitAux, hc] using ih cs (c :: acc)

theorem pySplit_ne_nil (s sep : String) : pySplit s sep ≠ [] := by
  unfold pySplit
  intro h
  exact pySplitAux_ne_nil sep.data s.data.length s.data [] (by simpa using h)

/-! ### Behaviour of `validate_problem_data`, case by case -/

theorem validate_ok (pd : ProblemData) (h1 : allFieldsTruthy pd = true)
    (h2 : gradeOk pd = true) :
    VG.validate_problem_data pd = ((true, "Valid"), normalizeSteps pd) := by
  simp only [allFieldsTruthy, Bool.and_eq_true] at h1
  obtain ⟨⟨⟨⟨hs, hg⟩, ht⟩, hst⟩, ha⟩ := h1
  unfold VG.validate_problem_data
  rw [hs, hg, ht, hst, ha, h2]
  simp only [Bool.not_true, Bool.false_eq_true, if_false]
  cases hsteps : pd.solution_steps with
  | none => rw [hsteps] at hst; simp [fieldTruthy] at hst
  | some v =>
    cases v with
    | str s =>
      have hn : normalizeSteps pd =
          { pd with solution_steps := some (.list (pySplit (pyStrip s) vgStepSep)) } := by
        unfold normalizeSteps
        rw [hsteps]
      rw [hn]
      have hlen : (pySplit (pyStrip s) vgStepSep).length ≠ 0 := by
        intro h
        exact pySplit_ne_nil (pyStrip s) vgStepSep (List.length_eq_zero.mp h)
      simp [hlen]
    | list l =>
      have hn : normalizeSteps pd = pd := by
        unfold normalizeSteps
        rw [hsteps]
      rw [hn, hsteps]
      rw [hsteps] at hst
      have hlen : l.length ≠ 0 := by
        simp [fieldTruthy, StepsVal.truthy] at hst
        intro h
        exact hst (List.length_eq_zero.mp h)
      simp [hlen]

theorem validate_gradeFail (pd : ProblemData) (h1 : allFieldsTruthy pd = true)
    (h2 : gradeOk pd = false) :
    VG.validate_problem_data pd = ((false, "Grade must be between 6 and 10"), pd) := by
  simp only [allFieldsTruthy, Bool.and_eq_true] at h1
  obtain ⟨⟨⟨⟨hs, hg⟩, ht⟩, hst⟩, ha⟩ := h1
  unfold VG.validate_problem_data
  rw [hs, hg, ht, hst, ha, h2]
  simp

theorem validate_missing (pd : ProblemData) (h : allFieldsTruthy pd = false) :
    ((VG.validate_problem_data pd).1).1 = false ∧
    isMissingFieldMsg ((VG.validate_problem_data pd).1).2 = true ∧
    (VG.validate_problem_data pd).2 = pd := by
  unfold VG.validate_problem_data
  cases h1 : fieldTruthy pd.statement (fun s => s != "") with
  | false => simp [h1]; decide
  | true =>
  cases h2 : fieldTruthy pd.grade GradeVal.truthy with
  | false => simp [h1, h2]; decide
  | true =>
  cases h3 : fieldTruthy pd.topic (fun s => s != "") with
  | false => simp [h1, h2, h3]; decide
  | true =>
  cases h4 : fieldTruthy pd.solution_steps StepsVal.truthy with
  | false => simp [h1, h2, h3, h4]; decide
  | true =>
  cases h5 : fieldTruthy pd.answer (fun s => s != "") with
  | false => simp [h1, h2, h3, h4, h5]; decide
  | true =>
    exfalso
    rw [allFieldsTruthy, h1, h2, h3, h4, h5] at h
    simp at h

/-- C6 (amended): `validate_problem_data` returns a missing-field error
exactly when one of the five fields is absent or falsy (that check runs
first); it returns the grade-range error exactly when all five fields are
present and truthy AND the grade is not an int within 6..10; it succeeds
exactly when all fields are present/truthy and the grade is valid; and the
"Solution steps must be a non-empty list" failure is unreachable for
string- or list-typed steps (a truthy string splits into at least one chunk,
a truthy list is non-empty). -/
theorem validate_error_taxonomy (pd : ProblemData) :
    (((VG.validate_problem_data pd).1).1 = true ↔
      (allFieldsTruthy pd && gradeOk pd) = true) ∧
    ((VG.validate_problem_data pd).1 = (false, "Grade must be between 6 and 10") ↔
      (allFieldsTruthy pd = true ∧ gradeOk pd = false)) ∧
    (isMissingFieldMsg ((VG.validate_problem_data pd).1).2 = true ↔
      allFieldsTruthy pd = false) ∧
    ((VG.validate_problem_data pd).1).2 ≠ "Solution steps must be a non-empty list" := by
  cases hA : allFieldsTruthy pd with
  | true =>
    cases hG : gradeOk pd with
    | true =>
      have h1 : (VG.validate_problem_data pd).1 = (true, "Valid") := by
        rw [validate_ok pd hA hG]
      rw [h1]
      decide
    | false =>
      have h1 : (VG.validate_problem_data pd).1 =
          (false, "Grade must be between 6 and 10") := by
        rw [validate_gradeFail pd hA hG]
      rw [h1]
      decide
  | false =>
    obtain ⟨hf, hm, _⟩ := validate_missing pd hA
    refine ⟨?_, ?_, ?_, ?_⟩
    · rw [hf]; simp
    · constructor
      · intro h
        rw [h] at hm
        exact absurd hm (by decide)
      · intro h
        exact absurd h.1 (by decide)
    · exact ⟨fun _ => rfl, fun _ => hm⟩
    · intro h
      rw [h] at hm
      exact absurd hm (by decide)

/-- C6 counterexample: with an empty statement AND grade 99 the function
returns the missing-field error, not the grade-range error, although the
grade is outside 6..10 — refuting the claim's "fails with a grade-range
error exactly when grade is not an integer within 6..10". -/
theorem validate_gradeErr_not_iff :
    ¬(((VG.validate_problem_data pdEmptyStmtBadGrade).1 =
        (false, "Grade must be between 6 and 10")) ↔
      gradeOk pdEmptyStmtBadGrade = false) := by
  decide

/-- C7 (amended): `validate_problem_data` leaves its input dict unchanged
UNLESS all field checks and the grade check pass and `solution_steps` is a
string, in which case it overwrites `solution_steps` in place with the split
list; it is not side-effect free in general. -/
theorem validate_mutation (pd : ProblemData) :
    (VG.validate_problem_data pd).2 =
      if allFieldsTruthy pd && gradeOk pd then normalizeSteps pd else pd := by
  cases hA : allFieldsTruthy pd with
  | true =>
    cases hG : gradeOk pd with
    | true => rw [validate_ok pd hA hG]; simp
    | false => rw [validate_gradeFail pd hA hG]; simp
  | false =>
    rw [(validate_missing pd hA).2.2]
    simp

/-- C7 counterexample: on a fully valid input whose steps arrive as a string,
the dict is mutated — `problem_data` is NOT the same after the call. -/
theorem validate_mutates_string_steps :
    (VG.validate_problem_data pdStrSteps).2 ≠ pdStrSteps := by
  decide

/-- C4: evaluation at the failing input.  `validate_problem_data` splits the
solution-steps block on the literal two-character sequence backslash-`n`
(source line 628 reads `.strip().split('\\n')`), so a block containing a
real line break stays ONE step, while the pre-splitting the claim (and
`app.py:516`) describes yields two; split-then-validate does not round-trip
to the pre-split sequence. -/
theorem validate_block_not_split :
    (VG.validate_problem_data pdBlock).1 = (true, "Valid") ∧
    (VG.validate_problem_data pdBlock).2.solution_steps =
      some (.list ["2x = 8\nx = 4"]) ∧
    App.preSplitSteps "2x = 8\nx = 4" = ["2x = 8", "x = 4"] ∧
    (VG.validate_problem_data pdPreSplit).2.solution_steps =
      some (.list ["2x = 8", "x = 4"]) := by
  decide

/-! ### Narration key structure (NarrationBuilder) -/

theorem append_ts_ne {a b : String} (ts : String) (h : a ≠ b) : a ++ ts ≠ b ++ ts :=
  fun he => h (str_append_right_cancel he)

theorem step_prefix_take2 (d : String) :
    ((("step_" ++ d) ++ "_")).data.take 2 = ['s', 't'] := rfl

theorem vgStepKey_inj (ts : String) : Function.Injective (vgStepKey ts) := by
  intro i j h
  unfold vgStepKey at h
  have h1 := str_append_right_cancel h
  have h2 := str_append_right_cancel h1
  have h3 := str_append_left_cancel h2
  have := natDecimal_inj h3
  omega

theorem audioStepEntries_keys (tl ts : String) :
    ∀ (l : List String) (i : Nat),
      (VG.audioStepEntries tl ts i l).map Prod.fst =
        (List.range l.length).map (fun k => vgStepKey ts (i + k)) := by
  intro l
  induction l with
  | nil => intro i; simp [VG.audioStepEntries]
  | cons s rest ih =>
    intro i
    simp only [VG.audioStepEntries, List.map_cons, List.length_cons]
    rw [List.range_succ_eq_map]
    simp only [List.map_cons, List.map_map]
    congr 1
    rw [ih (i + 1)]
    apply List.map_congr_left
    intro k _
    simp only [Function.comp_apply]
    congr 1
    omega

theorem vgFixedKeys_eq_map (ts : String) :
    vgFixedKeys ts =
      ["intro_", "title_", "problem_", "solution_start_", "answer_", "conclusion_"].map
        (fun p => p ++ ts) := rfl

theorem vgFixedKeys_nodup (ts : String) : (vgFixedKeys ts).Nodup := by
  rw [vgFixedKeys_eq_map]
  exact List.Nodup.map (fun a b h => str_append_right_cancel h) (by decide)

theorem vgFixedKeys_disjoint_stepKeys (ts : String) (n : Nat) :
    (vgFixedKeys ts).Disjoint ((List.range n).map (fun k => vgStepKey ts k)) := by
  intro a ha hb
  rw [vgFixedKeys_eq_map] at ha
  rcases List.mem_map.mp ha with ⟨p, hp, rfl⟩
  rcases List.mem_map.mp hb with ⟨k, _, hk⟩
  unfold vgStepKey at hk
  have hpe : ("step_" ++ natDecimal (k + 1)) ++ "_" = p :=
    str_append_right_cancel hk
  have htk := congrArg (fun s => s.data.take 2) hpe
  rw [show ((fun s : String => s.data.take 2) ((("step_" ++ natDecimal (k + 1)) ++ "_"))) =
      ['s', 't'] from step_prefix_take2 _] at htk
  fin_cases hp <;> exact absurd htk (by decide)

/-- C2 (amended, for `utils/video_generator.py`): for every timestamp string
and every `problem_data`, `generate_audio_content` produces exactly the six
fixed-slot entries followed by exactly one entry per solution step in step
order (keys `step_1_…`, `step_2_…`, …), its size is `6 + number of steps`,
and all keys are pairwise distinct.  (The near-duplicate builder in `app.py`
does NOT satisfy this: see the counterexample.) -/
theorem vg_audio_structure (ts : String) (pd : ProblemData) :
    ((VG.generate_audio_content ts pd).map Prod.fst =
      vgFixedKeys ts ++
        (List.range (stepsIterable pd.solution_steps).length).map
          (fun k => vgStepKey ts k)) ∧
    (VG.generate_audio_content ts pd).length =
      6 + (stepsIterable pd.solution_steps).length ∧
    ((VG.generate_audio_content ts pd).map Prod.fst).Nodup := by
  have hkeys : (VG.generate_audio_content ts pd).map Prod.fst =
      vgFixedKeys ts ++
        (List.range (stepsIterable pd.solution_steps).length).map
          (fun k => vgStepKey ts k) := by
    unfold VG.generate_audio_content
    rw [List.map_append, audioStepEntries_keys]
    simp [vgFixedKeys]
  refine ⟨hkeys, ?_, ?_⟩
  · have hlen := congrArg List.length hkeys
    simp only [List.length_map, List.length_append, List.length_range] at hlen
    rw [hlen]
    simp [vgFixedKeys]
  · rw [hkeys]
    rw [List.nodup_append]
    refine ⟨vgFixedKeys_nodup ts, ?_, vgFixedKeys_disjoint_stepKeys ts _⟩
    exact List.Nodup.map (vgStepKey_inj ts) (List.nodup_range _)

/-- C2 counterexample: `app.py`'s `generate_audio_content` on a valid
two-step problem returns only the six fixed entries — not `6 + 2`, i.e. no
per-step narration entries at all. -/
theorem app_audio_no_step_entries :
    (App.generate_audio_content "1712" pdTwoSteps).length ≠
      6 + pdTwoSteps.solution_steps.length ∧
    (App.generate_audio_content "1712" pdTwoSteps).length = 6 := by
  decide

/-! ### Audio synthesis durations -/

theorem audioFilesLoop_eq (ttsOk : Nat → Bool) :
    ∀ (l : List (String × String)) (i : Nat),
      VG.audioFilesLoop ttsOk i l =
        (List.enumFrom i l).map
          (fun p => (p.2.1, if ttsOk p.1 then VG.estimated_duration p.2.2 else 3)) := by
  intro l
  induction l with
  | nil => intro i; simp [VG.audioFilesLoop]
  | cons kv rest ih =>
    intro i
    cases kv with
    | mk k t => simp [VG.audioFilesLoop, List.enumFrom, ih (i + 1)]

/-- C8: `create_audio_files` returns a duration for EVERY narration key, in
order: with a client, item `i` gets the word-count estimate when its
text-to-speech call succeeds and the `3.0` fallback when it raises, and the
loop continues either way; without a client every key gets the estimate.  No
key is ever dropped and no per-item failure aborts the traversal. -/
theorem create_audio_files_total (ttsOk : Nat → Bool)
    (content : List (String × String)) :
    ((VG.create_audio_files true ttsOk content).map Prod.fst =
      content.map Prod.fst) ∧
    (VG.create_audio_files true ttsOk content =
      content.enum.map
        (fun p => (p.2.1, if ttsOk p.1 then VG.estimated_duration p.2.2 else 3))) ∧
    ((VG.create_audio_files false ttsOk content).map Prod.fst =
      content.map Prod.fst) ∧
    (VG.create_audio_files false ttsOk content =
      content.map (fun kv => (kv.1, VG.estimated_duration kv.2))) := by
  have htrue : VG.create_audio_files true ttsOk content =
      content.enum.map
        (fun p => (p.2.1, if ttsOk p.1 then VG.estimated_duration p.2.2 else 3)) := by
    unfold VG.create_audio_files
    simp only [Bool.not_true, Bool.false_eq_true, if_false]
    exact audioFilesLoop_eq ttsOk content 0
  refine ⟨?_, htrue, ?_, ?_⟩
  · rw [htrue, List.map_map]
    have : (Prod.fst ∘ fun p : Nat × (String × String) =>
        (p.2.1, if ttsOk p.1 then VG.estimated_duration p.2.2 else 3)) =
        (Prod.fst ∘ Prod.snd) := by
      funext p; rfl
    rw [this, ← List.map_map, List.enum_map_snd]
  · unfold VG.create_audio_files
    simp
  · unfold VG.create_audio_files
    simp

/-! ### Working-directory release in the render invokers -/

/-- C5 (amended): `app.py`'s `render_video` runs inside
`with tempfile.TemporaryDirectory()`, so its scratch directory is gone after
the call on EVERY exit path; `utils/video_generator.py`'s `render_video`
creates its directory with `tempfile.mkdtemp` and never deletes it, so that
directory still exists after the call on EVERY exit path (on success the
returned artifact itself lives inside it). -/
theorem render_dir_release (outcome : RenderOutcome) (temp_dir class_name : String) :
    dirExistsAfter ((App.render_video outcome temp_dir class_name).2) temp_dir = false ∧
    dirExistsAfter ((VG.render_video outcome temp_dir class_name).2) temp_dir = true := by
  cases outcome with
  | timeout =>
    constructor <;> simp [App.render_video, VG.render_video, dirExistsAfter]
  | exn msg =>
    constructor <;> simp [App.render_video, VG.render_video, dirExistsAfter]
  | exits rc out err dirEx files =>
    constructor <;>
      · simp only [App.render_video, VG.render_video]
        by_cases hrc : (rc != 0) = true
        · simp [hrc, dirExistsAfter]
        · rw [if_neg hrc]
          cases dirEx with
          | false => simp [dirExistsAfter]
          | true =>
            cases hf : List.find? (fun f => strEndsWith f ".mp4") files with
            | none => simp [hf, dirExistsAfter]
            | some f => simp [hf, dirExistsAfter]

/-- C5 counterexample: after a renderer-error exit (non-zero return code) the
`utils/video_generator.py` invoker reports the failure but its scratch
directory still exists — it is not released.  (The error text contains a
literal backslash-n, faithfully to the source's `f"...\\nSTDOUT..."`.) -/
theorem vg_render_dir_persists :
    (VG.render_video (.exits 1 "" "Traceback" false [])
        "/tmp/manim_render_ab" "AlgebraProblem1").1.error =
      some ("Manim rendering failed:\\nSTDOUT: \\nSTDERR: Traceback") ∧
    dirExistsAfter
      ((VG.render_video (.exits 1 "" "Traceback" false [])
          "/tmp/manim_render_ab" "AlgebraProblem1").2)
      "/tmp/manim_render_ab" = true := by
  decide

/-! ### Topic dispatch degeneracy (ScriptComposer) -/

theorem vg_dispatch_collapse (pd : ProblemData) (audio : List (String × String))
    (cls : String) :
    VG.generate_script_content pd audio cls =
      VG._generate_algebra_script pd audio cls := by
  unfold VG.generate_script_content VG._generate_geometry_script
    VG._generate_coordinate_geometry_script VG._generate_trigonometry_script
    VG._generate_stats_script VG._generate_generic_script
  simp only [ite_self]

theorem app_dispatch_collapse (key : String) (tsCls tsAudio : Nat)
    (pd : AppProblem) :
    (App.create_manim_script key tsCls tsAudio pd).1 =
      App.generate_algebra_script key (App.manim_class_name pd.topic tsCls) pd
        (App.generate_audio_content (natDecimal tsAudio) pd) := by
  unfold App.create_manim_script App.generate_geometry_script
    App.generate_coordinate_geometry_script App.generate_trigonometry_script
    App.generate_probability_script App.generate_statistics_script
    App.generate_generic_script
  simp only [ite_self]

/-- C3: every non-algebra topic branch of both script composers returns
exactly the algebra branch's result on the same inputs (each stub is a
one-line call to the algebra generator), the `utils/video_generator.py`
keyword dispatch `generate_script_content` therefore equals the algebra
generator on every topic, and the script component of `app.py`'s
`create_manim_script` equals the algebra generator's output for every topic. -/
theorem topic_branches_degenerate :
    (∀ (key cls : String) (pd : AppProblem) (audio : List (String × String)),
      App.generate_geometry_script key cls pd audio =
          App.generate_algebra_script key cls pd audio ∧
      App.generate_coordinate_geometry_script key cls pd audio =
          App.generate_algebra_script key cls pd audio ∧
      App.generate_trigonometry_script key cls pd audio =
          App.generate_algebra_script key cls pd audio ∧
      App.generate_probability_script key cls pd audio =
          App.generate_algebra_script key cls pd audio ∧
      App.generate_statistics_script key cls pd audio =
          App.generate_algebra_script key cls pd audio ∧
      App.generate_generic_script key cls pd audio =
          App.generate_algebra_script key cls pd audio) ∧
    (∀ (pd : ProblemData) (audio : List (String × String)) (cls : String),
      VG._generate_geometry_script pd audio cls =
          VG._generate_algebra_script pd audio cls ∧
      VG._generate_coordinate_geometry_script pd audio cls =
          VG._generate_algebra_script pd audio cls ∧
      VG._generate_trigonometry_script pd audio cls =
          VG._generate_algebra_script pd audio cls ∧
      VG._generate_stats_script pd audio cls =
          VG._generate_algebra_script pd audio cls ∧
      VG._generate_generic_script pd audio cls =
          VG._generate_algebra_script pd audio cls ∧
      VG.generate_script_content pd audio cls =
          VG._generate_algebra_script pd audio cls) ∧
    (∀ (key : String) (tsCls tsAudio : Nat) (pd : AppProblem),
      (App.create_manim_script key tsCls tsAudio pd).1 =
        App.generate_algebra_script key
          (App.manim_class_name pd.topic tsCls) pd
          (App.generate_audio_content (natDecimal tsAudio) pd)) :=
  ⟨fun _key _cls _pd _audio => ⟨rfl, rfl, rfl, rfl, rfl, rfl⟩,
   fun pd audio cls => ⟨rfl, rfl, rfl, rfl, rfl, vg_dispatch_collapse pd audio cls⟩,
   fun key tsCls tsAudio pd => app_dispatch_collapse key tsCls tsAudio pd⟩

/-! ### Composition never yields program text (ScriptComposer safety) -/

/-- C1 (amended): composition never escapes quoting characters and never
fails with `UnsafeEmbedding`, because on every input it fails outright
without producing any program text: `app.py`'s `generate_algebra_script`
cannot even be compiled (the f-string field at line 292 is a `SyntaxError`
under every CPython), so it and the script component of `create_manim_script`
denote that compile-time failure on all inputs; and
`utils/video_generator.py`'s `_generate_algebra_script` raises
`NameError: name 'i' is not defined` (the triple-braced field at line 377) on
every call, so `generate_script_content` fails on every topic.  No
`UnsafeEmbedding` — and no escaping of statement, steps or answer — exists
anywhere in either composer. -/
theorem script_composition_never_produces_text (key cls : String)
    (pdA : AppProblem) (audioA : List (String × String)) (tsCls tsAudio : Nat)
    (pd : ProblemData) (audio : List (String × String)) :
    App.generate_algebra_script key cls pdA audioA =
      .error (.syntaxError "f-string expression part cannot include a backslash") ∧
    (App.create_manim_script key tsCls tsAudio pdA).1 =
      .error (.syntaxError "f-string expression part cannot include a backslash") ∧
    VG._generate_algebra_script pd audio cls = .error (.nameError "i") ∧
    VG.generate_script_content pd audio cls = .error (.nameError "i") :=
  ⟨rfl, (app_dispatch_collapse key tsCls tsAudio pdA).trans rfl, rfl,
   (vg_dispatch_collapse pd audio cls).trans rfl⟩

/-- C1 counterexample: on a problem whose statement contains a double quote —
text that quote-escaping could have made safe to embed — composition neither
returns (escaped or unescaped) program text nor fails with `UnsafeEmbedding`:
the `app.py` composer denotes the line-292 compile-time `SyntaxError` and the
`utils/video_generator.py` dispatch returns the line-377 `NameError`, so the
escaped embedding the claim asserts never happens. -/
theorem script_quote_composition_fails :
    pdQuote.statement.data.contains '"' = true ∧
    App.generate_algebra_script "KEY123" "AlgebraProblem1712" pdQuote
        (App.generate_audio_content "1712" pdQuote) =
      .error (.syntaxError "f-string expression part cannot include a backslash") ∧
    (pdQuoteDict.statement.getD "").data.contains '"' = true ∧
    VG.generate_script_content pdQuoteDict
        (VG.generate_audio_content "1712" pdQuoteDict) "AlgebraProblem1712" =
      .error (.nameError "i") :=
  ⟨by decide, rfl, by decide,
   (vg_dispatch_collapse pdQuoteDict
       (VG.generate_audio_content "1712" pdQuoteDict) "AlgebraProblem1712").trans rfl⟩

/-! ### Entry-point (scene class) names -/

theorem isValidPythonIdent_cons {c : Char} {cs : List Char} {s : String}
    (h : s.data = c :: cs) :
    isValidPythonIdent s = (identStart c && cs.all identCont) := by
  unfold isValidPythonIdent
  rw [h]

theorem validIdent_append_digits (p : String) (hp : isValidPythonIdent p = true)
    (ts : Nat) : isValidPythonIdent (p ++ natDecimal ts) = true := by
  obtain ⟨c, cs, hd⟩ : ∃ c cs, p.data = c :: cs := by
    cases hd : p.data with
    | nil =>
      unfold isValidPythonIdent at hp
      rw [hd] at hp
      simp at hp
    | cons c cs => exact ⟨c, cs, rfl⟩
  have hcat : (p ++ natDecimal ts).data = c :: (cs ++ (natDecimal ts).data) := by
    rw [String.data_append, hd, List.cons_append]
  rw [isValidPythonIdent_cons hcat, List.all_append]
  rw [isValidPythonIdent_cons hd] at hp
  simp only [Bool.and_eq_true] at hp ⊢
  exact ⟨hp.1, hp.2,
    List.all_eq_true.mpr (fun x hx => natDecimal_all_identCont ts x hx)⟩

/-- C9 (amended): for any fixed topic, class names derived at distinct
timestamps are distinct (in both `app.py` and `utils/video_generator.py`
derivations), and for every topic offered by the `app.py` UI the derived
name is a syntactically valid identifier for every timestamp.  Identifier
validity does NOT hold for arbitrary topics accepted by validation — see the
counterexample. -/
theorem class_name_properties :
    (∀ (topic : Option String) (t1 t2 : Nat),
      VG.video_class_name topic t1 = VG.video_class_name topic t2 → t1 = t2) ∧
    (∀ (topic : String) (t1 t2 : Nat),
      App.manim_class_name topic t1 = App.manim_class_name topic t2 → t1 = t2) ∧
    (∀ topic ∈ appUiTopics, ∀ ts : Nat,
      isValidPythonIdent (App.manim_class_name topic ts) = true ∧
      isValidPythonIdent (VG.video_class_name (some topic) ts) = true) := by
  refine ⟨?_, ?_, ?_⟩
  · intro topic t1 t2 h
    unfold VG.video_class_name at h
    exact natDecimal_inj (str_append_left_cancel h)
  · intro topic t1 t2 h
    unfold App.manim_class_name at h
    exact natDecimal_inj (str_append_left_cancel h)
  · intro topic htopic ts
    fin_cases htopic <;>
      exact ⟨validIdent_append_digits _ (by decide) ts,
        validIdent_append_digits _ (by decide) ts⟩

/-- C9 witness: the amended theorem applied at topic `"Algebra"` and
timestamp `5`, its hypotheses discharged concretely. -/
theorem class_name_properties_witness :
    (5 : Nat) = 5 ∧ isValidPythonIdent (App.manim_class_name "Algebra" 5) = true :=
  ⟨class_name_properties.1 (some "Algebra") 5 5 rfl,
   (class_name_properties.2.2 "Algebra" (by decide) 5).1⟩

/-- C9 counterexample: the topic `"2D Shapes"` passes validation (any
non-empty topic does), yet the derived scene class name
`2DShapesProblem1712` begins with a digit and is not a valid identifier. -/
theorem digit_topic_invalid_class_name :
    (VG.validate_problem_data pdDigitTopic).1 = (true, "Valid") ∧
    isValidPythonIdent (VG.video_class_name pdDigitTopic.topic 1712) = false := by
  decide

/-- C10: an input whose step list contains an empty string is accepted by
`validate_problem_data` — validation only checks that the list itself is
non-empty, never per-entry non-emptiness. -/
theorem validate_accepts_empty_step :
    ∃ (pd : ProblemData) (steps : List String),
      pd.solution_steps = some (.list steps) ∧ "" ∈ steps ∧
      VG.validate_problem_data pd = ((true, "Valid"), pd) :=
  ⟨pdEmptyStep, ["2x = 8", ""], by decide, by decide, by decide⟩

end MathVideo
